import Mathlib

/-!
Verification of the data-transformation core of `src/app.py` (Colombia coca
density dashboard).  The Python source is shallowly embedded here:

* raw dataframe cells (`RawValue`) carry either an absent value, a string or
  a number, as delivered by the Socrata JSON source;
* `pd.to_numeric(·, errors=..coerce..)` becomes `toNumeric?`, where `none`
  models a non-finite float result (`NaN`, or `±Infinity` for a division by
  zero) — every finite float value is modelled exactly as a rational;
* dataframe columns become per-record field lookups, and the pandas
  aggregations (`.sum()`, `.min()`, `.max()`) become list folds with the
  same NaN-skipping semantics the source relies on.
-/

set_option linter.unusedVariables false

/-- A geometry value, as produced by `shape(x)` from the `the_geom` GeoJSON
field (app.py line 33).  The pipeline only carries geometries through, so the
coordinate content is all that matters. -/
inductive Geometry where
  | polygon (rings : List (List (ℚ × ℚ)))
  | multiPolygon (polys : List (List (List (ℚ × ℚ))))
deriving DecidableEq, Repr

/-- A raw dataframe cell: absent (pandas `NaN` for a missing field), a string,
or a number, as delivered by the upstream Socrata source. -/
inductive RawValue where
  | absent
  | str (s : String)
  | num (q : ℚ)
deriving DecidableEq, Repr

/-- One row of the geodataframe `gdf` (app.py line 34): a geometry plus the
year-labelled density fields, looked up by column name. -/
structure RawRecord where
  geometry : Geometry
  fields : String → RawValue

/-- Digit string to natural number, most significant first. -/
def digitsToNat (cs : List Char) : ℕ :=
  cs.foldl (fun n c => 10 * n + (c.toNat - ('0').toNat)) 0

/-- A non-empty all-digit run, as the integral or fractional part of a float
literal. -/
def parseDigits? (cs : List Char) : Option ℕ :=
  if cs ≠ [] ∧ cs.all Char.isDigit then some (digitsToNat cs) else none

/-- Split a character list at the first separator matching `p`: the part
before it, and — when a separator occurs — the whole remainder after it. -/
def splitFirst (p : Char → Bool) : List Char → List Char × Option (List Char)
  | [] => ([], none)
  | c :: rest =>
      if p c then ([], some rest)
      else ((c :: (splitFirst p rest).1), (splitFirst p rest).2)

/-- Mantissa of a Python float literal: digits with an optional decimal
point, at least one digit overall, read as an integer together with a decimal
exponent (the value is `fst * 10 ^ snd`).  A second decimal point lands in
the fractional part and fails its digit check, as Python rejects it. -/
def parseMantissa? (cs : List Char) : Option (ℤ × ℤ) :=
  match splitFirst (fun c => c == '.') cs with
  | (intp, none) => (parseDigits? intp).map (fun n => ((n : ℤ), (0 : ℤ)))
  | (intp, some fracp) =>
      if (intp ≠ [] ∨ fracp ≠ []) ∧ intp.all Char.isDigit ∧ fracp.all Char.isDigit then
        some ((digitsToNat (intp ++ fracp) : ℤ), -(fracp.length : ℤ))
      else none

/-- Exponent of a float literal: optionally signed digit run. -/
def parseExp? (cs : List Char) : Option ℤ :=
  match cs with
  | '+' :: r => (parseDigits? r).map Int.ofNat
  | '-' :: r => (parseDigits? r).map (fun n => -(n : ℤ))
  | _ => (parseDigits? cs).map Int.ofNat

/-- Unsigned float literal: mantissa with an optional `e`/`E` exponent, in
integer-times-power-of-ten form.  A second exponent marker lands in the
exponent part and fails its digit check, as Python rejects it. -/
def parseMag? (cs : List Char) : Option (ℤ × ℤ) :=
  match splitFirst (fun c => c == 'e' || c == 'E') cs with
  | (m, none) => parseMantissa? m
  | (m, some ex) => do
      let mv ← parseMantissa? m
      let ev ← parseExp? ex
      pure (mv.1, mv.2 + ev)

/-- Strip surrounding whitespace, as Python's float parsing does. -/
def trimChars (cs : List Char) : List Char :=
  ((cs.dropWhile Char.isWhitespace).reverse.dropWhile Char.isWhitespace).reverse

/-- Scientific decomposition of a float literal: optional sign, then a
magnitude; the parsed value is `fst * 10 ^ snd`. -/
def parseSci? (cs : List Char) : Option (ℤ × ℤ) :=
  match cs with
  | '+' :: rest => parseMag? rest
  | '-' :: rest => (parseMag? rest).map (fun p => (-p.1, p.2))
  | _ => parseMag? cs

/-- Numeric parse of a string cell, as `pd.to_numeric` performs it on text:
optional surrounding whitespace, optional sign, decimal mantissa, optional
exponent.  `none` models the `NaN` produced under `errors=..coerce..` for
unparsable text. -/
def parseFloat? (s : String) : Option ℚ :=
  (parseSci? (trimChars s.toList)).map (fun p => (p.1 : ℚ) * 10 ^ p.2)

/-- `pd.to_numeric(v, errors=..coerce..)` on one cell: numbers pass through,
strings are parsed, a missing cell stays `NaN`.  `none` models `NaN`. -/
def toNumeric? (v : RawValue) : Option ℚ :=
  match v with
  | .absent => none
  | .str s => parseFloat? s
  | .num q => some q

/-- The density coercion used throughout the source: `pd.to_numeric` followed
by treating `NaN` as zero (`.fillna(0)` on app.py line 180, and the
NaN-skipping `.sum()` on line 72). -/
def coerce (v : RawValue) : ℚ :=
  (toNumeric? v).getD 0

/-- `years = list(range(2001, 2023))` (app.py line 40). -/
def years : List ℕ := List.range' 2001 22

/-- The hardcoded year → column-name table `year_col_map` (app.py lines
44-67); `none` models the `KeyError` a Python lookup of an unmapped year
raises. -/
def year_col_map (y : ℕ) : Option String :=
  match y with
  | 2001 => some "areacoca_2001"
  | 2002 => some "areacoca_2002"
  | 2003 => some "areacoca_2003"
  | 2004 => some "areacoca2004"
  | 2005 => some "areacoca_2005"
  | 2006 => some "areacoca_2006"
  | 2007 => some "areacoca_2007"
  | 2008 => some "areacoca_2008"
  | 2009 => some "areacoca_2009"
  | 2010 => some "areacoca_2010"
  | 2011 => some "areacoca_2011"
  | 2012 => some "areacoca_2012"
  | 2013 => some "areacoca_2013"
  | 2014 => some "areacoca_2014"
  | 2015 => some "areacoca_2015"
  | 2016 => some "areacoca_2016"
  | 2017 => some "areacoca_2017"
  | 2018 => some "areacoca_2018"
  | 2019 => some "areacoca_2019"
  | 2020 => some "areacoca_2020"
  | 2021 => some "areacoca_2021"
  | 2022 => some "coca2022_"
  | _ => none

/-- A column of coerced densities: `pd.to_numeric(gdf[col], errors=..coerce..)`
with `NaN` treated as `0`, which is both what `.fillna(0)` produces (app.py
line 180) and what each cell contributes to the NaN-skipping `.sum()` (line
72). -/
def densities (gdf : List RawRecord) (col : String) : List ℚ :=
  gdf.map (fun r => coerce (r.fields col))

/-- `pd.to_numeric(gdf[column_name], errors=..coerce..).sum()` (app.py line
72): pandas `.sum()` skips `NaN` entries, so each unparsable or missing cell
contributes `0`; the sum of an all-`NaN` (or empty) column is `0.0`. -/
def columnSum (gdf : List RawRecord) (col : String) : ℚ :=
  (densities gdf col).sum

/-- One row of the `bubble_data` dataframe after the aggregation loop
(app.py lines 70-73). -/
structure BubbleRow where
  year : ℕ
  total_density : ℚ
deriving DecidableEq, Repr

/-- The aggregation loop (app.py lines 70-73): for each year in `years`, look
up the column name and sum the coerced column.  The lookup cannot fail because
every member of `years` is mapped, which the `filterMap` makes explicit. -/
def bubble_data (gdf : List RawRecord) : List BubbleRow :=
  years.filterMap (fun y => (year_col_map y).map (fun col => ⟨y, columnSum gdf col⟩))

/-- Maximum of a float column, as pandas `.max()`: `none` on an empty series.
(Totals are never `NaN`, so NaN-skipping does not arise here.) -/
def listMax : List ℚ → Option ℚ
  | [] => none
  | a :: as => some (as.foldl max a)

/-- Minimum of a float column, as pandas `.min()`: `none` on an empty
series. -/
def listMin : List ℚ → Option ℚ
  | [] => none
  | a :: as => some (as.foldl min a)

/-- Float division as pandas performs it elementwise: a zero divisor yields a
non-finite float (`NaN` from `0/0`, `±Infinity` otherwise), modelled `none`;
any other division is exact. -/
def pdDiv (a b : ℚ) : Option ℚ :=
  if b = 0 then none else some (a / b)

/-- One row of `bubble_data` after the scaling step (app.py line 79): the
`scaled_density` column, `none` when the float result is non-finite. -/
structure ScaledRow where
  year : ℕ
  total_density : ℚ
  scaled_density : Option ℚ
deriving DecidableEq, Repr

/-- The scaling step (app.py line 79):
`bubble_data[..scaled_density..] = bubble_data[..total_density..] /
bubble_data[..total_density..].max() * 20`.  (The `.getD 0` for the maximum
is unreachable: `bubble_data` always has 22 rows.) -/
def scaledBubble (gdf : List RawRecord) : List ScaledRow :=
  (bubble_data gdf).map (fun r =>
    ⟨r.year, r.total_density,
      (pdDiv r.total_density
        ((listMax ((bubble_data gdf).map (fun s => s.total_density))).getD 0)).map
        (fun q => q * 20)⟩)

/-- The per-year map data assembled by `update_visuals` (app.py lines
171-226): the features pair each record's geometry with its coerced density
for the selected year in record order (lines 176-180), and `zmin`/`zmax` are
the color domain passed to the choropleth (lines 183-188 and 209-210), with
`adjusted_max = max_density * 0.3`.  `none` in `zmin`/`zmax` models the `NaN`
that pandas `.min()`/`.max()` return on an empty frame. -/
structure YearLayer where
  features : List (Geometry × ℚ)
  zmin : Option ℚ
  zmax : Option ℚ
deriving DecidableEq, Repr

/-- The map half of `update_visuals` (app.py lines 172-213): look up the
year's column (`none` models the `KeyError` for an unmapped year), coerce the
column, and compute the color domain. -/
def buildLayer (gdf : List RawRecord) (year : ℕ) : Option YearLayer :=
  (year_col_map year).map (fun col =>
    { features := (gdf.map (fun r => r.geometry)).zip (densities gdf col)
      zmin := listMin (densities gdf col)
      zmax := (listMax (densities gdf col)).map (fun m => m * (3 / 10)) })

/-- The pair of figures returned by `update_visuals` (app.py line 249),
reduced to their data content: the map layer and the bubble-chart rows. -/
structure Output where
  mapLayer : YearLayer
  bubble : List ScaledRow
deriving DecidableEq, Repr

/-- `update_visuals(selected_year)` (app.py lines 171-249): the callback
reads the module-level `gdf` and the precomputed `bubble_data` (here passed
explicitly as `bub`), builds the year's map layer, and returns both figures.
The bubble figure (lines 229-247) is built from `bubble_data` alone and does
not read `selected_year`. -/
def update_visuals (gdf : List RawRecord) (bub : List ScaledRow)
    (selected_year : ℕ) : Option Output :=
  (buildLayer gdf selected_year).map (fun L => ⟨L, bub⟩)

/-- The process-lifetime data the callback closes over: the normalized
record set `gdf` (app.py line 34) and the scaled `bubble_data` (line 79),
both computed once before the app starts. -/
structure AppState where
  gdf : List RawRecord
  bubble_rows : List ScaledRow

/-- The startup computation: `bubble_data` with its `scaled_density` column
is derived from the full dataset once (app.py lines 40-79), before any
selection event. -/
def startupState (gdf : List RawRecord) : AppState :=
  ⟨gdf, scaledBubble gdf⟩

/-- One selection event: the callback runs `update_visuals` against the
process state and leaves that state untouched (line 176 copies `gdf` before
mutating the copy, and `bubble_data` is only read).  Returning the state
makes the absence of mutation explicit. -/
def onSelect (st : AppState) (y : ℕ) : Option Output × AppState :=
  (update_visuals st.gdf st.bubble_rows y, st)

/-- A fixed triangle standing in for a record's polygon. -/
def geom0 : Geometry :=
  .polygon [[(0, 0), (1, 0), (0, 1), (0, 0)]]

/-- One record whose density is literally `0` for every year. -/
def gdfZero : List RawRecord :=
  [⟨geom0, fun _ => .num 0⟩]

/-- One record with every density field missing. -/
def gdfAbsent : List RawRecord :=
  [⟨geom0, fun _ => .absent⟩]

/-- One record with density `10` in 2001 and nothing elsewhere. -/
def gdfTen : List RawRecord :=
  [⟨geom0, fun c => if c = "areacoca_2001" then .num 10 else .absent⟩]

/-- One record with density `-5` in 2001, `10` in 2002, nothing elsewhere. -/
def gdfMixed : List RawRecord :=
  [⟨geom0, fun c => if c = "areacoca_2001" then .num (-5)
      else if c = "areacoca_2002" then .num 10 else .absent⟩]

/-- One record with density `10` in both 2001 and 2002, nothing elsewhere. -/
def gdfTie : List RawRecord :=
  [⟨geom0, fun c => if c = "areacoca_2001" then .num 10
      else if c = "areacoca_2002" then .num 10 else .absent⟩]

/-! ### Helper lemmas about the list folds standing in for pandas
`.min()`/`.max()` -/

theorem foldl_max_init_le (l : List ℚ) : ∀ a : ℚ, a ≤ l.foldl max a := by
  induction l with
  | nil => intro a; simp
  | cons b t ih => intro a; exact le_trans (le_max_left a b) (ih (max a b))

theorem foldl_max_le_of_mem (l : List ℚ) :
    ∀ (a x : ℚ), x ∈ l → x ≤ l.foldl max a := by
  induction l with
  | nil => intro a x hx; cases hx
  | cons b t ih =>
    intro a x hx
    rcases List.mem_cons.mp hx with rfl | hx
    · exact le_trans (le_max_right a x) (foldl_max_init_le t (max a x))
    · exact ih (max a b) x hx

theorem foldl_max_mem (l : List ℚ) :
    ∀ a : ℚ, l.foldl max a = a ∨ l.foldl max a ∈ l := by
  induction l with
  | nil => intro a; left; rfl
  | cons b t ih =>
    intro a
    rcases ih (max a b) with h | h
    · rcases le_total a b with hab | hba
      · right
        rw [List.foldl_cons, h, max_eq_right hab]
        exact List.mem_cons_self b t
      · left
        rw [List.foldl_cons, h, max_eq_left hba]
    · right
      exact List.mem_cons_of_mem _ h

theorem foldl_min_mem (l : List ℚ) :
    ∀ a : ℚ, l.foldl min a = a ∨ l.foldl min a ∈ l := by
  induction l with
  | nil => intro a; left; rfl
  | cons b t ih =>
    intro a
    rcases ih (min a b) with h | h
    · rcases le_total a b with hab | hba
      · left
        rw [List.foldl_cons, h, min_eq_left hab]
      · right
        rw [List.foldl_cons, h, min_eq_right hba]
        exact List.mem_cons_self b t
    · right
      exact List.mem_cons_of_mem _ h

theorem listMax_isSome {l : List ℚ} (h : l ≠ []) : ∃ M, listMax l = some M := by
  cases l with
  | nil => exact absurd rfl h
  | cons a t => exact ⟨t.foldl max a, rfl⟩

theorem le_listMax {l : List ℚ} {M x : ℚ} (hM : listMax l = some M)
    (hx : x ∈ l) : x ≤ M := by
  cases l with
  | nil => cases hx
  | cons a t =>
    have h := Option.some.inj hM
    rcases List.mem_cons.mp hx with rfl | hx
    · exact h ▸ foldl_max_init_le t x
    · exact h ▸ foldl_max_le_of_mem t a x hx

theorem listMax_mem {l : List ℚ} {M : ℚ} (hM : listMax l = some M) : M ∈ l := by
  cases l with
  | nil => cases hM
  | cons a t =>
    have h := Option.some.inj hM
    rcases foldl_max_mem t a with h2 | h2
    · rw [← h, h2]; exact List.mem_cons_self a t
    · rw [← h]; exact List.mem_cons_of_mem _ h2

theorem listMin_isSome {l : List ℚ} (h : l ≠ []) : ∃ m, listMin l = some m := by
  cases l with
  | nil => exact absurd rfl h
  | cons a t => exact ⟨t.foldl min a, rfl⟩

theorem listMin_mem {l : List ℚ} {m : ℚ} (hm : listMin l = some m) : m ∈ l := by
  cases l with
  | nil => cases hm
  | cons a t =>
    have h := Option.some.inj hm
    rcases foldl_min_mem t a with h2 | h2
    · rw [← h, h2]; exact List.mem_cons_self a t
    · rw [← h]; exact List.mem_cons_of_mem _ h2

/-- Every year in `years` has a mapped column. -/
theorem years_mapped : ∀ y ∈ years, (year_col_map y).isSome := by decide

/-- Every year in `years` has a mapped column, in existential form. -/
theorem years_mapped_ex (y : ℕ) (hy : y ∈ years) :
    ∃ col, year_col_map y = some col :=
  Option.isSome_iff_exists.mp (years_mapped y hy)

/-- The aggregation loop, unrolled: one row per year with its hardcoded
column, in loop order. -/
theorem bubble_data_eq (gdf : List RawRecord) :
    bubble_data gdf =
      [⟨2001, columnSum gdf "areacoca_2001"⟩,
       ⟨2002, columnSum gdf "areacoca_2002"⟩,
       ⟨2003, columnSum gdf "areacoca_2003"⟩,
       ⟨2004, columnSum gdf "areacoca2004"⟩,
       ⟨2005, columnSum gdf "areacoca_2005"⟩,
       ⟨2006, columnSum gdf "areacoca_2006"⟩,
       ⟨2007, columnSum gdf "areacoca_2007"⟩,
       ⟨2008, columnSum gdf "areacoca_2008"⟩,
       ⟨2009, columnSum gdf "areacoca_2009"⟩,
       ⟨2010, columnSum gdf "areacoca_2010"⟩,
       ⟨2011, columnSum gdf "areacoca_2011"⟩,
       ⟨2012, columnSum gdf "areacoca_2012"⟩,
       ⟨2013, columnSum gdf "areacoca_2013"⟩,
       ⟨2014, columnSum gdf "areacoca_2014"⟩,
       ⟨2015, columnSum gdf "areacoca_2015"⟩,
       ⟨2016, columnSum gdf "areacoca_2016"⟩,
       ⟨2017, columnSum gdf "areacoca_2017"⟩,
       ⟨2018, columnSum gdf "areacoca_2018"⟩,
       ⟨2019, columnSum gdf "areacoca_2019"⟩,
       ⟨2020, columnSum gdf "areacoca_2020"⟩,
       ⟨2021, columnSum gdf "areacoca_2021"⟩,
       ⟨2022, columnSum gdf "coca2022_"⟩] := rfl

/-! ### Evaluation lemmas for the concrete datasets -/

theorem columnSum_gdfZero (c : String) : columnSum gdfZero c = 0 := by
  simp [columnSum, densities, gdfZero, coerce, toNumeric?]

theorem columnSum_gdfAbsent (c : String) : columnSum gdfAbsent c = 0 := by
  simp [columnSum, densities, gdfAbsent, coerce, toNumeric?]

theorem columnSum_gdfTen (c : String) :
    columnSum gdfTen c = if c = "areacoca_2001" then 10 else 0 := by
  by_cases h : c = "areacoca_2001" <;>
    simp [columnSum, densities, gdfTen, coerce, toNumeric?, h]

theorem columnSum_gdfMixed (c : String) :
    columnSum gdfMixed c =
      if c = "areacoca_2001" then -5
      else if c = "areacoca_2002" then 10 else 0 := by
  by_cases h1 : c = "areacoca_2001" <;> by_cases h2 : c = "areacoca_2002" <;>
    simp [columnSum, densities, gdfMixed, coerce, toNumeric?, h1, h2]

theorem columnSum_gdfTie (c : String) :
    columnSum gdfTie c =
      if c = "areacoca_2001" then 10
      else if c = "areacoca_2002" then 10 else 0 := by
  by_cases h1 : c = "areacoca_2001" <;> by_cases h2 : c = "areacoca_2002" <;>
    simp [columnSum, densities, gdfTie, coerce, toNumeric?, h1, h2]

theorem bubble_rows_gdfZero :
    bubble_data gdfZero =
      [⟨2001, 0⟩, ⟨2002, 0⟩, ⟨2003, 0⟩, ⟨2004, 0⟩, ⟨2005, 0⟩, ⟨2006, 0⟩,
       ⟨2007, 0⟩, ⟨2008, 0⟩, ⟨2009, 0⟩, ⟨2010, 0⟩, ⟨2011, 0⟩, ⟨2012, 0⟩,
       ⟨2013, 0⟩, ⟨2014, 0⟩, ⟨2015, 0⟩, ⟨2016, 0⟩, ⟨2017, 0⟩, ⟨2018, 0⟩,
       ⟨2019, 0⟩, ⟨2020, 0⟩, ⟨2021, 0⟩, ⟨2022, 0⟩] := by
  rw [bubble_data_eq]
  simp only [columnSum_gdfZero]

theorem bubble_rows_gdfTen :
    bubble_data gdfTen =
      [⟨2001, 10⟩, ⟨2002, 0⟩, ⟨2003, 0⟩, ⟨2004, 0⟩, ⟨2005, 0⟩, ⟨2006, 0⟩,
       ⟨2007, 0⟩, ⟨2008, 0⟩, ⟨2009, 0⟩, ⟨2010, 0⟩, ⟨2011, 0⟩, ⟨2012, 0⟩,
       ⟨2013, 0⟩, ⟨2014, 0⟩, ⟨2015, 0⟩, ⟨2016, 0⟩, ⟨2017, 0⟩, ⟨2018, 0⟩,
       ⟨2019, 0⟩, ⟨2020, 0⟩, ⟨2021, 0⟩, ⟨2022, 0⟩] := by
  rw [bubble_data_eq]
  simp only [columnSum_gdfTen]
  decide

theorem bubble_rows_gdfMixed :
    bubble_data gdfMixed =
      [⟨2001, -5⟩, ⟨2002, 10⟩, ⟨2003, 0⟩, ⟨2004, 0⟩, ⟨2005, 0⟩, ⟨2006, 0⟩,
       ⟨2007, 0⟩, ⟨2008, 0⟩, ⟨2009, 0⟩, ⟨2010, 0⟩, ⟨2011, 0⟩, ⟨2012, 0⟩,
       ⟨2013, 0⟩, ⟨2014, 0⟩, ⟨2015, 0⟩, ⟨2016, 0⟩, ⟨2017, 0⟩, ⟨2018, 0⟩,
       ⟨2019, 0⟩, ⟨2020, 0⟩, ⟨2021, 0⟩, ⟨2022, 0⟩] := by
  rw [bubble_data_eq]
  simp only [columnSum_gdfMixed]
  decide

theorem bubble_rows_gdfTie :
    bubble_data gdfTie =
      [⟨2001, 10⟩, ⟨2002, 10⟩, ⟨2003, 0⟩, ⟨2004, 0⟩, ⟨2005, 0⟩, ⟨2006, 0⟩,
       ⟨2007, 0⟩, ⟨2008, 0⟩, ⟨2009, 0⟩, ⟨2010, 0⟩, ⟨2011, 0⟩, ⟨2012, 0⟩,
       ⟨2013, 0⟩, ⟨2014, 0⟩, ⟨2015, 0⟩, ⟨2016, 0⟩, ⟨2017, 0⟩, ⟨2018, 0⟩,
       ⟨2019, 0⟩, ⟨2020, 0⟩, ⟨2021, 0⟩, ⟨2022, 0⟩] := by
  rw [bubble_data_eq]
  simp only [columnSum_gdfTie]
  decide

theorem listMax_totals_gdfZero :
    listMax ((bubble_data gdfZero).map (fun s => s.total_density)) = some 0 := by
  rw [bubble_rows_gdfZero]
  norm_num [listMax, List.foldl, max_def]

theorem listMax_totals_gdfTen :
    listMax ((bubble_data gdfTen).map (fun s => s.total_density)) = some 10 := by
  rw [bubble_rows_gdfTen]
  norm_num [listMax, List.foldl, max_def]

theorem listMax_totals_gdfMixed :
    listMax ((bubble_data gdfMixed).map (fun s => s.total_density)) = some 10 := by
  rw [bubble_rows_gdfMixed]
  norm_num [listMax, List.foldl, max_def]

theorem listMax_totals_gdfTie :
    listMax ((bubble_data gdfTie).map (fun s => s.total_density)) = some 10 := by
  rw [bubble_rows_gdfTie]
  norm_num [listMax, List.foldl, max_def]

theorem scaled_rows_gdfZero :
    scaledBubble gdfZero =
      [⟨2001, 0, none⟩, ⟨2002, 0, none⟩, ⟨2003, 0, none⟩, ⟨2004, 0, none⟩,
       ⟨2005, 0, none⟩, ⟨2006, 0, none⟩, ⟨2007, 0, none⟩, ⟨2008, 0, none⟩,
       ⟨2009, 0, none⟩, ⟨2010, 0, none⟩, ⟨2011, 0, none⟩, ⟨2012, 0, none⟩,
       ⟨2013, 0, none⟩, ⟨2014, 0, none⟩, ⟨2015, 0, none⟩, ⟨2016, 0, none⟩,
       ⟨2017, 0, none⟩, ⟨2018, 0, none⟩, ⟨2019, 0, none⟩, ⟨2020, 0, none⟩,
       ⟨2021, 0, none⟩, ⟨2022, 0, none⟩] := by
  rw [scaledBubble.eq_def, listMax_totals_gdfZero, bubble_rows_gdfZero]
  norm_num [pdDiv]

theorem scaled_rows_gdfMixed :
    scaledBubble gdfMixed =
      [⟨2001, -5, some (-10)⟩, ⟨2002, 10, some 20⟩, ⟨2003, 0, some 0⟩,
       ⟨2004, 0, some 0⟩, ⟨2005, 0, some 0⟩, ⟨2006, 0, some 0⟩,
       ⟨2007, 0, some 0⟩, ⟨2008, 0, some 0⟩, ⟨2009, 0, some 0⟩,
       ⟨2010, 0, some 0⟩, ⟨2011, 0, some 0⟩, ⟨2012, 0, some 0⟩,
       ⟨2013, 0, some 0⟩, ⟨2014, 0, some 0⟩, ⟨2015, 0, some 0⟩,
       ⟨2016, 0, some 0⟩, ⟨2017, 0, some 0⟩, ⟨2018, 0, some 0⟩,
       ⟨2019, 0, some 0⟩, ⟨2020, 0, some 0⟩, ⟨2021, 0, some 0⟩,
       ⟨2022, 0, some 0⟩] := by
  rw [scaledBubble.eq_def, listMax_totals_gdfMixed, bubble_rows_gdfMixed]
  norm_num [pdDiv]

theorem scaled_rows_gdfTie :
    scaledBubble gdfTie =
      [⟨2001, 10, some 20⟩, ⟨2002, 10, some 20⟩, ⟨2003, 0, some 0⟩,
       ⟨2004, 0, some 0⟩, ⟨2005, 0, some 0⟩, ⟨2006, 0, some 0⟩,
       ⟨2007, 0, some 0⟩, ⟨2008, 0, some 0⟩, ⟨2009, 0, some 0⟩,
       ⟨2010, 0, some 0⟩, ⟨2011, 0, some 0⟩, ⟨2012, 0, some 0⟩,
       ⟨2013, 0, some 0⟩, ⟨2014, 0, some 0⟩, ⟨2015, 0, some 0⟩,
       ⟨2016, 0, some 0⟩, ⟨2017, 0, some 0⟩, ⟨2018, 0, some 0⟩,
       ⟨2019, 0, some 0⟩, ⟨2020, 0, some 0⟩, ⟨2021, 0, some 0⟩,
       ⟨2022, 0, some 0⟩] := by
  rw [scaledBubble.eq_def, listMax_totals_gdfTie, bubble_rows_gdfTie]
  norm_num [pdDiv]

/-! ### Claims -/

/-- C1: the spec requires the all-zero-totals degenerate case to yield a
defined, finite `scaledSize` for every one of the 22 points; the code instead
divides by the zero maximum on app.py line 79, so every `scaled_density` is
the non-finite `NaN` (modelled `none`).  This theorem evaluates the code at
the failing input: one record whose density is `0` for every year. -/
theorem C1_zero_totals_all_nan :
    (scaledBubble gdfZero).map (fun r => r.scaled_density) =
      List.replicate 22 none := by
  rw [scaled_rows_gdfZero]
  rfl

/-- C5: for every record set, the aggregation output has exactly 22 entries,
the years 2001..2022 each exactly once in ascending order, and each entry's
total is the sum over records of the coerced density of that year's column
(missing/unparsable cells contributing 0 via the NaN-skipping sum). -/
theorem C5_aggregate_shape (gdf : List RawRecord) :
    (bubble_data gdf).length = 22 ∧
    (bubble_data gdf).map (fun r => r.year) = List.range' 2001 22 ∧
    ∀ row ∈ bubble_data gdf, ∃ col, year_col_map row.year = some col ∧
      row.total_density = (gdf.map (fun r => coerce (r.fields col))).sum := by
  refine ⟨?_, ?_, ?_⟩
  · rw [bubble_data_eq]
    rfl
  · rw [bubble_data_eq]
    rfl
  · rw [bubble_data_eq]
    intro row hrow
    simp only [List.mem_cons, List.not_mem_nil, or_false] at hrow
    rcases hrow with rfl|rfl|rfl|rfl|rfl|rfl|rfl|rfl|rfl|rfl|rfl|rfl|rfl|rfl|rfl|rfl|rfl|rfl|rfl|rfl|rfl|rfl
    all_goals exact ⟨_, rfl, rfl⟩

/-- C6: every year 2001..2022 maps to a non-empty column name, the 22 names
are pairwise distinct, and every out-of-range year (in particular 2000 and
2023) has no mapping — the Python lookup raises `KeyError` (`none`). -/
theorem C6_field_map :
    (∀ y ∈ years, ∃ s, year_col_map y = some s ∧ s ≠ "") ∧
    (years.filterMap year_col_map).Nodup ∧
    ∀ y : ℕ, y < 2001 ∨ 2022 < y → year_col_map y = none := by
  refine ⟨?_, by decide, ?_⟩
  · intro y hy
    have h := (show ∀ y ∈ years,
        (year_col_map y).isSome ∧ (year_col_map y).getD "" ≠ "" by decide) y hy
    obtain ⟨s, hs⟩ := Option.isSome_iff_exists.mp h.1
    exact ⟨s, hs, by simpa [hs] using h.2⟩
  · intro y hy
    rcases hy with h | h <;>
      · rw [year_col_map.eq_def]
        split <;> first | rfl | (exfalso; omega)

/-- C6 witness: the 2010 lookup succeeds with a non-empty name; 2000 and
2023 fail. -/
theorem C6_witness :
    (∃ s, year_col_map 2010 = some s ∧ s ≠ "") ∧
    year_col_map 2000 = none ∧ year_col_map 2023 = none :=
  ⟨C6_field_map.1 2010 (by decide),
   C6_field_map.2.2 2000 (Or.inl (by decide)),
   C6_field_map.2.2 2023 (Or.inr (by decide))⟩

/-- C7: density coercion returns 0 for an absent cell, the empty string and
non-numeric text, returns the parsed value for numeric text (`"12.5"` ↦
12.5 = 25/2), and is a total function of the raw cell — parse failure
degrades to the `NaN`-to-zero default rather than an error. -/
theorem C7_coercion :
    coerce .absent = 0 ∧ coerce (.str "") = 0 ∧ coerce (.str "abc") = 0 ∧
    coerce (.str "12.5") = 25 / 2 ∧
    (∀ v, toNumeric? v = none → coerce v = 0) ∧
    ∀ v q, toNumeric? v = some q → coerce v = q := by
  refine ⟨rfl, rfl, rfl, ?_, ?_, ?_⟩
  · have h : parseFloat? "12.5" = some (((125 : ℤ) : ℚ) * 10 ^ (-1 : ℤ)) := rfl
    simp only [coerce, toNumeric?, h, Option.getD_some]
    norm_num
  · intro v hv
    simp [coerce, hv]
  · intro v q hv
    simp [coerce, hv]

/-- C7 witness: the two universally quantified clauses at concrete cells. -/
theorem C7_witness :
    coerce (.num (7 / 4)) = 7 / 4 ∧ coerce (.str "xyz") = 0 :=
  ⟨C7_coercion.2.2.2.2.2 (.num (7 / 4)) (7 / 4) rfl,
   C7_coercion.2.2.2.2.1 (.str "xyz") rfl⟩

/-- C2 counterexample: for one record with (non-negative) density 10 in
2001, the layer's color domain is `(10, 3)` — the damped maximum
`10 * 0.3 = 3` lies strictly below the minimum, refuting `min <= dampedMax`
for non-empty records with non-negative densities. -/
theorem C2_counterexample :
    buildLayer gdfTen 2001 = some ⟨[(geom0, 10)], some 10, some 3⟩ ∧
    ¬ ∀ L ∈ buildLayer gdfTen 2001, ∀ m ∈ L.zmin, ∀ M ∈ L.zmax, m ≤ M := by
  have hd : densities gdfTen "areacoca_2001" = [10] := by
    simp [densities, gdfTen, coerce, toNumeric?]
  have hg : gdfTen.map (fun r => r.geometry) = [geom0] := by
    simp [gdfTen]
  have h : buildLayer gdfTen 2001 = some ⟨[(geom0, 10)], some 10, some 3⟩ := by
    simp only [buildLayer]
    rw [show year_col_map 2001 = some "areacoca_2001" from rfl]
    simp [hd, hg, listMin, listMax]
    norm_num
  refine ⟨h, fun hcl => ?_⟩
  have h10 := hcl ⟨[(geom0, 10)], some 10, some 3⟩ h 10 rfl 3 rfl
  norm_num at h10

/-- C2 (amended): for a non-empty record set and a mapped year with
non-negative densities, the color domain is
`(min density, (max density) * 0.3)` — `dampedMax = 0.3 * rawMax` holds —
and `min <= rawMax`; the claimed `min <= dampedMax` is refuted by the
counterexample. -/
theorem C2_color_domain (gdf : List RawRecord) (y : ℕ) (col : String)
    (hcol : year_col_map y = some col) (hne : gdf ≠ [])
    (hnn : ∀ q ∈ densities gdf col, 0 ≤ q) :
    ∃ m M, listMin (densities gdf col) = some m ∧
      listMax (densities gdf col) = some M ∧
      buildLayer gdf y =
        some ⟨(gdf.map (fun r => r.geometry)).zip (densities gdf col),
          some m, some (M * (3 / 10))⟩ ∧
      m ≤ M := by
  have hdne : densities gdf col ≠ [] := by
    simpa [densities] using hne
  obtain ⟨m, hm⟩ := listMin_isSome hdne
  obtain ⟨M, hM⟩ := listMax_isSome hdne
  refine ⟨m, M, hm, hM, ?_, le_listMax hM (listMin_mem hm)⟩
  simp [buildLayer, hcol, hm, hM]

/-- C2 witness: the amended color-domain theorem at the single-record
dataset with density 10 in 2001. -/
theorem C2_witness :
    ∃ m M, listMin (densities gdfTen "areacoca_2001") = some m ∧
      listMax (densities gdfTen "areacoca_2001") = some M ∧
      buildLayer gdfTen 2001 =
        some ⟨(gdfTen.map (fun r => r.geometry)).zip
            (densities gdfTen "areacoca_2001"),
          some m, some (M * (3 / 10))⟩ ∧
      m ≤ M :=
  C2_color_domain gdfTen 2001 "areacoca_2001" rfl (by simp [gdfTen])
    (by simp [densities, gdfTen, coerce, toNumeric?])

/-- C10: when every record's raw density for the selected year's column is
missing or unparsable, layer construction still succeeds and the color
domain is `(0, 0)`: the NaN-to-zero fill makes every density 0, so
`min = 0` and `dampedMax = 0 * 0.3 = 0`. -/
theorem C10_all_missing_layer (gdf : List RawRecord) (y : ℕ) (col : String)
    (hcol : year_col_map y = some col) (hne : gdf ≠ [])
    (hmiss : ∀ r ∈ gdf, toNumeric? (r.fields col) = none) :
    ∃ L, buildLayer gdf y = some L ∧ L.zmin = some 0 ∧ L.zmax = some 0 := by
  have hall : ∀ q ∈ densities gdf col, q = 0 := by
    intro q hq
    simp only [densities, List.mem_map] at hq
    obtain ⟨r, hr, rfl⟩ := hq
    simp [coerce, hmiss r hr]
  have hdne : densities gdf col ≠ [] := by
    simpa [densities] using hne
  obtain ⟨m, hm⟩ := listMin_isSome hdne
  obtain ⟨M, hM⟩ := listMax_isSome hdne
  have hm0 : m = 0 := hall m (listMin_mem hm)
  have hM0 : M = 0 := hall M (listMax_mem hM)
  refine ⟨⟨(gdf.map (fun r => r.geometry)).zip (densities gdf col),
      listMin (densities gdf col),
      (listMax (densities gdf col)).map (fun x => x * (3 / 10))⟩,
    by simp [buildLayer, hcol], ?_, ?_⟩
  · rw [hm, hm0]
  · rw [hM, hM0]
    norm_num

/-- C10 witness: the all-missing layer theorem at the single-record dataset
with every field absent, year 2001. -/
theorem C10_witness :
    ∃ L, buildLayer gdfAbsent 2001 = some L ∧
      L.zmin = some 0 ∧ L.zmax = some 0 :=
  C10_all_missing_layer gdfAbsent 2001 "areacoca_2001" rfl
    (by simp [gdfAbsent]) (by simp [gdfAbsent, toNumeric?])

/-- C3 counterexample: with density -5 in 2001 and 10 in 2002 the maximum
total is 10, and 2001's scaled size is `-5 / 10 * 20 = -10 < 0` — refuting
"every scaledSize in the sequence is >= 0" for every dataset. -/
theorem C3_counterexample :
    (scaledBubble gdfMixed).map (fun r => r.scaled_density) =
      [some (-10), some 20, some 0, some 0, some 0, some 0, some 0, some 0,
       some 0, some 0, some 0, some 0, some 0, some 0, some 0, some 0,
       some 0, some 0, some 0, some 0, some 0, some 0] ∧
    ¬ (0 : ℚ) ≤ -10 := by
  refine ⟨?_, by norm_num⟩
  rw [scaled_rows_gdfMixed]
  rfl

/-- C3 (amended): when every yearly total is non-negative — which the
counterexample shows is a needed assumption the raw data does not guarantee
— and at least one total is nonzero, every scaled size is defined with
`0 <= scaledSize <= 20` and the value 20 is attained. -/
theorem C3_scaling_invariant (gdf : List RawRecord)
    (hnn : ∀ row ∈ bubble_data gdf, 0 ≤ row.total_density)
    (hnz : ∃ row ∈ bubble_data gdf, row.total_density ≠ 0) :
    (∃ r ∈ scaledBubble gdf, r.scaled_density = some 20) ∧
    ∀ r ∈ scaledBubble gdf, ∃ q, r.scaled_density = some q ∧
      0 ≤ q ∧ q ≤ 20 := by
  obtain ⟨row0, hrow0, h0⟩ := hnz
  have hmem0 : row0.total_density ∈
      (bubble_data gdf).map (fun s => s.total_density) :=
    List.mem_map_of_mem _ hrow0
  obtain ⟨M, hM⟩ := listMax_isSome (List.ne_nil_of_mem hmem0)
  have hMpos : 0 < M := by
    rcases lt_or_eq_of_le (hnn row0 hrow0) with h3 | h3
    · exact lt_of_lt_of_le h3 (le_listMax hM hmem0)
    · exact absurd h3.symm h0
  have hMne : M ≠ 0 := ne_of_gt hMpos
  have hsb : scaledBubble gdf = (bubble_data gdf).map (fun r =>
      (⟨r.year, r.total_density,
        (pdDiv r.total_density M).map (fun q => q * 20)⟩ : ScaledRow)) := by
    rw [scaledBubble.eq_def, hM]
    rfl
  constructor
  · obtain ⟨row1, hrow1, hrow1M⟩ := List.mem_map.mp (listMax_mem hM)
    refine ⟨⟨row1.year, row1.total_density,
        (pdDiv row1.total_density M).map (fun q => q * 20)⟩,
      by rw [hsb]; exact List.mem_map_of_mem _ hrow1, ?_⟩
    rw [hrow1M]
    simp [pdDiv, hMne, div_self]
  · intro r hr
    rw [hsb] at hr
    obtain ⟨row, hrow, rfl⟩ := List.mem_map.mp hr
    refine ⟨row.total_density / M * 20, by simp [pdDiv, hMne], ?_, ?_⟩
    · have := hnn row hrow
      positivity
    · have hle : row.total_density ≤ M :=
        le_listMax hM (List.mem_map_of_mem _ hrow)
      have h1 : row.total_density / M ≤ 1 := (div_le_one hMpos).mpr hle
      calc row.total_density / M * 20 ≤ 1 * 20 := by
            exact mul_le_mul_of_nonneg_right h1 (by norm_num)
        _ = 20 := one_mul 20

/-- C3 witness: the amended scaling invariant at the dataset with a single
density 10 in 2001. -/
theorem C3_witness :
    (∃ r ∈ scaledBubble gdfTen, r.scaled_density = some 20) ∧
    ∀ r ∈ scaledBubble gdfTen, ∃ q, r.scaled_density = some q ∧
      0 ≤ q ∧ q ≤ 20 :=
  C3_scaling_invariant gdfTen
    (by
      intro row hrow
      rw [bubble_rows_gdfTen] at hrow
      simp only [List.mem_cons, List.not_mem_nil, or_false] at hrow
      rcases hrow with rfl|rfl|rfl|rfl|rfl|rfl|rfl|rfl|rfl|rfl|rfl|rfl|rfl|rfl|rfl|rfl|rfl|rfl|rfl|rfl|rfl|rfl <;>
        norm_num)
    ⟨⟨2001, 10⟩, by rw [bubble_rows_gdfTen]; simp, by norm_num⟩

/-- C4 counterexample: with density 10 in both 2001 and 2002 (totals not all
zero), two of the 22 points carry `scaledSize = 20`, refuting "exactly
one". -/
theorem C4_counterexample :
    (bubble_data gdfTie).map (fun r => r.total_density) =
      [10, 10, 0, 0, 0, 0, 0, 0, 0, 0, 0, 0, 0, 0, 0, 0, 0, 0, 0, 0, 0, 0] ∧
    (scaledBubble gdfTie).countP
      (fun r => r.scaled_density == some 20) = 2 := by
  constructor
  · rw [bubble_rows_gdfTie]
    rfl
  · rw [scaled_rows_gdfTie]
    norm_num [List.countP_cons, List.countP_nil, beq_iff_eq]

/-- C4 (amended): when the maximum yearly total `M` is nonzero and exactly
one aggregation row attains it, exactly one of the 22 points has
`scaledSize = 20`; with a tie (see the counterexample) each tied year gets
the constant. -/
theorem C4_unique_max_point (gdf : List RawRecord) (M : ℚ)
    (hM : listMax ((bubble_data gdf).map (fun s => s.total_density)) = some M)
    (hMne : M ≠ 0)
    (huniq : (bubble_data gdf).countP (fun r => r.total_density == M) = 1) :
    (scaledBubble gdf).countP (fun r => r.scaled_density == some 20) = 1 := by
  have hsb : scaledBubble gdf = (bubble_data gdf).map (fun r =>
      (⟨r.year, r.total_density,
        (pdDiv r.total_density M).map (fun q => q * 20)⟩ : ScaledRow)) := by
    rw [scaledBubble.eq_def, hM]
    rfl
  rw [hsb, List.countP_map, ← huniq]
  apply List.countP_congr
  intro r hr
  simp only [Function.comp_apply, pdDiv, if_neg hMne, Option.map_some']
  rw [beq_iff_eq, beq_iff_eq, Option.some_inj, div_mul_eq_mul_div,
    div_eq_iff hMne]
  constructor
  · intro h
    linarith
  · intro h
    rw [h]
    ring

/-- C4 witness: the unique-maximum theorem at the dataset with a single
density 10 in 2001 (maximum total 10, attained only by 2001). -/
theorem C4_witness :
    (scaledBubble gdfTen).countP
      (fun r => r.scaled_density == some 20) = 1 :=
  C4_unique_max_point gdfTen 10 listMax_totals_gdfTen (by norm_num)
    (by
      rw [bubble_rows_gdfTen]
      norm_num [List.countP_cons, List.countP_nil, beq_iff_eq])

/-- C8: selecting the same in-range year twice against the same state
returns structurally identical outputs, and the state (normalized dataset
and precomputed scaled rows) is unchanged by either call — the second call
runs against the state returned by the first. -/
theorem C8_idempotent (st : AppState) (y : ℕ) (hy : y ∈ years) :
    ∃ out, onSelect st y = (some out, st) ∧
      onSelect ((onSelect st y).2) y = (some out, st) := by
  obtain ⟨col, hcol⟩ := years_mapped_ex y hy
  refine ⟨⟨⟨(st.gdf.map (fun r => r.geometry)).zip (densities st.gdf col),
      listMin (densities st.gdf col),
      (listMax (densities st.gdf col)).map (fun m => m * (3 / 10))⟩,
    st.bubble_rows⟩, ?_, ?_⟩ <;>
    simp [onSelect, update_visuals, buildLayer, hcol]

/-- C8 witness: the idempotence theorem at the all-zero single-record
startup state and the year 2001. -/
theorem C8_witness :
    ∃ out, onSelect (startupState gdfZero) 2001 =
        (some out, startupState gdfZero) ∧
      onSelect ((onSelect (startupState gdfZero) 2001).2) 2001 =
        (some out, startupState gdfZero) :=
  C8_idempotent (startupState gdfZero) 2001 (by decide)

/-- C9: for any two in-range years the bubble-chart half of the output is
identical — it is the `scaledBubble` series computed once at startup from
the full dataset, and `update_visuals` never reads the selected year when
building it; only the map layer varies. -/
theorem C9_series_independent_of_year (gdf : List RawRecord) (y1 y2 : ℕ)
    (h1 : y1 ∈ years) (h2 : y2 ∈ years) :
    ∃ o1 o2, (onSelect (startupState gdf) y1).1 = some o1 ∧
      (onSelect (startupState gdf) y2).1 = some o2 ∧
      o1.bubble = o2.bubble ∧ o1.bubble = scaledBubble gdf := by
  obtain ⟨c1, hc1⟩ := years_mapped_ex y1 h1
  obtain ⟨c2, hc2⟩ := years_mapped_ex y2 h2
  refine ⟨⟨⟨(gdf.map (fun r => r.geometry)).zip (densities gdf c1),
      listMin (densities gdf c1),
      (listMax (densities gdf c1)).map (fun m => m * (3 / 10))⟩,
    scaledBubble gdf⟩,
    ⟨⟨(gdf.map (fun r => r.geometry)).zip (densities gdf c2),
      listMin (densities gdf c2),
      (listMax (densities gdf c2)).map (fun m => m * (3 / 10))⟩,
    scaledBubble gdf⟩, ?_, ?_, rfl, rfl⟩ <;>
    simp [onSelect, update_visuals, buildLayer, startupState, hc1, hc2]

/-- C9 witness: the year-independence theorem for years 2001 and 2022 over
the all-zero single-record dataset. -/
theorem C9_witness :
    ∃ o1 o2, (onSelect (startupState gdfZero) 2001).1 = some o1 ∧
      (onSelect (startupState gdfZero) 2022).1 = some o2 ∧
      o1.bubble = o2.bubble ∧ o1.bubble = scaledBubble gdfZero :=
  C9_series_independent_of_year gdfZero 2001 2022 (by decide) (by decide)

/-- C5 witness: the aggregation-shape theorem at the all-zero
single-record dataset. -/
theorem C5_witness :
    (bubble_data gdfZero).length = 22 ∧
    (bubble_data gdfZero).map (fun r => r.year) = List.range' 2001 22 :=
  ⟨(C5_aggregate_shape gdfZero).1, (C5_aggregate_shape gdfZero).2.1⟩
